import Mathlib

/-!
Verification of the UK land-registry dataset service (`src/main.py`) against its
natural-language specification.

Modelling conventions (shallow embedding of the Python/pandas code):
* A CSV cell is a `String`; a missing value (pandas `NaN` after `read_csv` with
  `dtype=str`) is modelled as `none : Option String`, a present value as `some s`.
  An empty CSV cell reads back as missing (`none`), exactly as pandas turns an
  empty field into `NaN`.
* A `Record` is one row under the fixed 16-column schema of `column_names`
  (main.py lines 11-14), every field an `Option String`.
* pandas `drop_duplicates(subset=[...])` with the default `keep="first"` keeps
  the first row for each key value, treating `NaN` key components as equal to
  each other, which `DecidableEq (Option String)` models directly.
* File existence, the shared `download_status` dict, and the HTTP responses are
  passed and returned explicitly; the network transfer performed by the
  background task is abstracted as an `Except String Unit` outcome.
-/

/-- The fixed column schema (main.py lines 11-14). -/
def column_names : List String :=
  ["uuid", "price", "date", "postcode", "type", "isNew", "duration", "code",
   "dNo", "street", "locality", "town", "district", "county", "skip1", "skip2"]

/-- One row of the dataset under the fixed schema; each field is an opaque
string, `none` standing for a pandas missing value (`NaN`). -/
structure Record where
  uuid : Option String
  price : Option String
  date : Option String
  postcode : Option String
  type : Option String
  isNew : Option String
  duration : Option String
  code : Option String
  dNo : Option String
  street : Option String
  locality : Option String
  town : Option String
  district : Option String
  county : Option String
  skip1 : Option String
  skip2 : Option String
deriving DecidableEq, Repr

/-- The composite dedup key: the `subset` columns of the
`drop_duplicates` call on main.py line 86. -/
def dedupKey (r : Record) :
    Option String × Option String × Option String × Option String × Option String :=
  (r.street, r.locality, r.town, r.district, r.county)

/-- pandas `chunk.drop_duplicates(subset=["street","locality","town","district",
"county"])` (main.py line 86): keep the first row for each key, preserving row
order. `seen` accumulates the keys already kept. -/
def drop_duplicates (seen : List (Option String × Option String × Option String ×
    Option String × Option String)) : List Record → List Record
  | [] => []
  | r :: rs =>
    if dedupKey r ∈ seen then drop_duplicates seen rs
    else r :: drop_duplicates (dedupKey r :: seen) rs

/-- The deduplication core of the `/deduplicate` endpoint (main.py lines
82-89): each chunk is deduplicated on its own with `drop_duplicates`, and the
per-chunk results are concatenated (`pd.concat`, `ignore_index=True`).  There
is no cross-chunk pass. -/
def deduplicate_data (batches : List (List Record)) : List Record :=
  (batches.map (drop_duplicates [])).flatten

/-- Serialize one field for `to_csv` (main.py line 90): a missing value is
written as an empty cell (pandas default `na_rep`), a present string as
itself. -/
def writeCell : Option String → String
  | none => ""
  | some s => s

/-- Parse one CSV cell as `read_csv` does on the lookup path (main.py line
118): an empty cell becomes a missing value (`NaN`), anything else is kept as
a string.  Because the artifact's header line is read back as data (the file
is written with a header but re-read with `header=None`), every column
contains at least one non-numeric string, so pandas keeps all columns at
object (string) dtype. -/
def readCell (s : String) : Option String :=
  if s = "" then none else some s

/-- One record serialized to a CSV row, fields in schema order. -/
def recordToRow (r : Record) : List String :=
  [writeCell r.uuid, writeCell r.price, writeCell r.date, writeCell r.postcode,
   writeCell r.type, writeCell r.isNew, writeCell r.duration, writeCell r.code,
   writeCell r.dNo, writeCell r.street, writeCell r.locality, writeCell r.town,
   writeCell r.district, writeCell r.county, writeCell r.skip1, writeCell r.skip2]

/-- One CSV row parsed positionally against the 16-column schema
(`names=column_names`). -/
def rowToRecord (row : List String) : Record :=
  { uuid := readCell (row.getD 0 ""), price := readCell (row.getD 1 ""),
    date := readCell (row.getD 2 ""), postcode := readCell (row.getD 3 ""),
    type := readCell (row.getD 4 ""), isNew := readCell (row.getD 5 ""),
    duration := readCell (row.getD 6 ""), code := readCell (row.getD 7 ""),
    dNo := readCell (row.getD 8 ""), street := readCell (row.getD 9 ""),
    locality := readCell (row.getD 10 ""), town := readCell (row.getD 11 ""),
    district := readCell (row.getD 12 ""), county := readCell (row.getD 13 ""),
    skip1 := readCell (row.getD 14 ""), skip2 := readCell (row.getD 15 "") }

/-- The artifact written by `deduplicated_df.to_csv(..., index=False)`
(main.py line 90): a header line holding the column names — `to_csv` writes
the header by default — followed by one CSV row per record.  Note the write
happens on line 90, before the `replace` call on line 92. -/
def writeArtifact (rs : List Record) : List (List String) :=
  column_names :: rs.map recordToRow

/-- The per-value normalization of the lookup loop (main.py lines 123-126):
`record[key] = None` when `pd.isna(value)` or the value is `float("inf")` or
`float("-inf")`.  In the embedding a missing value is already `none`, and a
present value is a string, for which `pd.isna` is false and which is never
equal to a float infinity, so it is kept. -/
def normalizeVal : Option String → Option String
  | none => none
  | some s => some s

/-- `normalizeVal` applied to every field of a record. -/
def normalizeRecord (r : Record) : Record :=
  { uuid := normalizeVal r.uuid, price := normalizeVal r.price,
    date := normalizeVal r.date, postcode := normalizeVal r.postcode,
    type := normalizeVal r.type, isNew := normalizeVal r.isNew,
    duration := normalizeVal r.duration, code := normalizeVal r.code,
    dNo := normalizeVal r.dNo, street := normalizeVal r.street,
    locality := normalizeVal r.locality, town := normalizeVal r.town,
    district := normalizeVal r.district, county := normalizeVal r.county,
    skip1 := normalizeVal r.skip1, skip2 := normalizeVal r.skip2 }

/-- Outcome of the `/data/...` point-lookup endpoint: a 200 response carrying a
record, or an `HTTPException` with a status code. -/
inductive LookupResult where
  | found : Record → LookupResult
  | httpError : Nat → LookupResult
deriving DecidableEq, Repr

/-- The `/data/...` point-lookup endpoint `get_data` (main.py lines 114-132).
`artifact` is `none` when the deduplicated file does not exist, in which case
`pd.read_csv` raises and the blanket `except Exception` answers 500.  The file
is read with `header=None, names=column_names`, so every line — the header
line included — is parsed as a record; rows whose `uuid` field equals the
query are selected in order.  If none matches, the code raises
`HTTPException(404)` *inside* the `try` block, and the `except Exception`
clause catches that very exception and re-raises it as a 500, so the
not-found path also answers 500.  On a match, the first matching record is
returned after field normalization. -/
def get_data (artifact : Option (List (List String))) (uuid : String) : LookupResult :=
  match artifact with
  | none => .httpError 500
  | some rows =>
    match (rows.map rowToRecord).filter (fun r => r.uuid = some uuid) with
    | [] => .httpError 500
    | r :: _ => .found (normalizeRecord r)

/-- The process-wide `download_status` dict (main.py line 25): a status string
plus the stored error message, if any. -/
structure DownloadStatus where
  status : String
  error : Option String
deriving DecidableEq, Repr

/-- What one call of the `/download` endpoint does: the updated
`download_status`, the HTTP status code, the response message, and whether it
scheduled the `download_dataset` background task (the only place any network
transfer happens). -/
structure EndpointResult where
  newState : DownloadStatus
  code : Nat
  message : String
  schedulesDownload : Bool
deriving DecidableEq, Repr

/-- The `/download` endpoint `download_data` (main.py lines 58-71).
`fileExists` is `DATA_FILE.exists()`; note that a partial file left behind by
a failed transfer also makes it true, since `Path.exists` does not verify
completeness.  The handler performs no network transfer itself: it only
schedules `download_dataset` in the final branch. -/
def download_data (fileExists : Bool) (st : DownloadStatus) : EndpointResult :=
  if fileExists then
    ⟨⟨"already downloaded", st.error⟩, 200, "Data has already been downloaded.", false⟩
  else if st.status = "downloading" then
    ⟨st, 202, "Data download is in progress.", false⟩
  else if st.status = "failed" then
    ⟨st, 500, st.error.getD "", false⟩
  else
    ⟨st, 202, "Data download initiated.", true⟩

/-- The `download_dataset` background task (main.py lines 27-56), with the
network transfer abstracted as `fetchResult` (success, or the exception
message).  Returns the updated `download_status` and whether any network
request was issued.  If the file already exists the task returns before
touching the network. -/
def download_dataset (fileExists : Bool) (st : DownloadStatus)
    (fetchResult : Except String Unit) : DownloadStatus × Bool :=
  if fileExists then (⟨"already downloaded", st.error⟩, false)
  else
    match fetchResult with
    | .ok _ => (⟨"Downloaded", st.error⟩, true)
    | .error e => (⟨"failed", some e⟩, true)


/-- The record with key (A,A,A,A,A) and id 1 from the spec's worked example. -/
def recA1 : Record :=
  ⟨some "1", none, none, none, none, none, none, none, none,
   some "A", some "A", some "A", some "A", some "A", none, none⟩

/-- The record with key (B,B,B,B,B) and id 2 from the spec's worked example. -/
def recB2 : Record :=
  ⟨some "2", none, none, none, none, none, none, none, none,
   some "B", some "B", some "B", some "B", some "B", none, none⟩

/-- The record with key (A,A,A,A,A) and id 3 from the spec's worked example. -/
def recA3 : Record :=
  ⟨some "3", none, none, none, none, none, none, none, none,
   some "A", some "A", some "A", some "A", some "A", none, none⟩

/-- A record with a missing (`NaN`) street field and an empty-string locality,
used to exercise the null-normalization round trip. -/
def recNullStreet : Record :=
  ⟨some "7", some "100", none, none, none, none, none, none, none,
   none, some "", some "T", some "D", some "C", none, none⟩

/-- The write-then-read round trip of one cell through the artifact: serialize
with `writeCell` (line 90), parse back with `readCell` (line 118), then apply
the lookup normalization (lines 123-126). -/
def cellRoundTrip (v : Option String) : Option String :=
  normalizeVal (readCell (writeCell v))

/-- A record written to the artifact and read back through the lookup path,
normalization included. -/
def roundTrip (r : Record) : Record :=
  normalizeRecord (rowToRecord (recordToRow r))

/-- The sixteen fields of a record, in schema order. -/
def fieldsOf (r : Record) : List (Option String) :=
  [r.uuid, r.price, r.date, r.postcode, r.type, r.isNew, r.duration, r.code,
   r.dNo, r.street, r.locality, r.town, r.district, r.county, r.skip1, r.skip2]

theorem normalizeVal_id (v : Option String) : normalizeVal v = v := by
  cases v <;> rfl

theorem normalizeRecord_id (r : Record) : normalizeRecord r = r := by
  cases r
  simp [normalizeRecord, normalizeVal_id]

theorem map_normalizeRecord_id (l : List Record) : l.map normalizeRecord = l := by
  induction l with
  | nil => rfl
  | cons a t ih => simp [normalizeRecord_id, ih]

theorem cellRoundTrip_eq_readCell_writeCell (v : Option String) :
    cellRoundTrip v = readCell (writeCell v) :=
  normalizeVal_id _

theorem cellRoundTrip_none : cellRoundTrip none = none := rfl

theorem cellRoundTrip_some {s : String} (h : s ≠ "") :
    cellRoundTrip (some s) = some s := by
  simp [cellRoundTrip, writeCell, readCell, normalizeVal, h]

theorem cellRoundTrip_none_or_id (v : Option String) :
    cellRoundTrip v = none ∨ cellRoundTrip v = v := by
  cases v with
  | none => exact Or.inl rfl
  | some s =>
    by_cases h : s = ""
    · subst h; exact Or.inl rfl
    · exact Or.inr (cellRoundTrip_some h)

theorem cellRoundTrip_ne_empty (v : Option String) : cellRoundTrip v ≠ some "" := by
  cases v with
  | none => simp [cellRoundTrip_none]
  | some s =>
    by_cases h : s = ""
    · subst h; decide
    · rw [cellRoundTrip_some h]
      simpa using h

theorem fieldsOf_roundTrip (r : Record) :
    fieldsOf (roundTrip r) = (fieldsOf r).map cellRoundTrip := rfl

theorem rowToRecord_recordToRow_uuid (r : Record) :
    (rowToRecord (recordToRow r)).uuid = readCell (writeCell r.uuid) := rfl

theorem getD_map_cellRoundTrip :
    ∀ (l : List (Option String)) (i : Nat),
      l.getD i none = none → (l.map cellRoundTrip).getD i none = none := by
  intro l
  induction l with
  | nil => intro i _; simp
  | cons a t ih =>
    intro i h
    cases i with
    | zero =>
      simp only [List.getD_cons_zero] at h
      simp only [List.map_cons, List.getD_cons_zero, h, cellRoundTrip_none]
    | succ n =>
      simp only [List.getD_cons_succ] at h
      simpa only [List.map_cons, List.getD_cons_succ] using ih n h

theorem get_data_first_match (u : String) (pre post : List Record) (r : Record)
    (hhdr : u ≠ "uuid") (h0 : u ≠ "") (hr : r.uuid = some u)
    (hpre : ∀ x ∈ pre, x.uuid ≠ some u) :
    get_data (some (writeArtifact (pre ++ r :: post))) u = .found (roundTrip r) := by
  have hcell : readCell (writeCell (some u)) = some u := by
    simp [writeCell, readCell, h0]
  have hpredr : (rowToRecord (recordToRow r)).uuid = some u := by
    rw [rowToRecord_recordToRow_uuid, hr, hcell]
  have hhdrp : ¬ (rowToRecord column_names).uuid = some u := by
    intro h
    have h2 : some "uuid" = some u := h
    exact hhdr (Option.some.inj h2).symm
  have hprf : ∀ x ∈ pre, ¬ (rowToRecord (recordToRow x)).uuid = some u := by
    intro x hx h
    rw [rowToRecord_recordToRow_uuid, ← cellRoundTrip_eq_readCell_writeCell] at h
    rcases cellRoundTrip_none_or_id x.uuid with hc | hc
    · rw [hc] at h; exact Option.noConfusion h
    · rw [hc] at h; exact hpre x hx h
  have hnil : (pre.map fun x => rowToRecord (recordToRow x)).filter
      (fun x => x.uuid = some u) = [] := by
    rw [List.filter_eq_nil_iff]
    intro a ha
    simp only [List.mem_map] at ha
    obtain ⟨x, hx, rfl⟩ := ha
    simpa using hprf x hx
  have hfil :
      ((writeArtifact (pre ++ r :: post)).map rowToRecord).filter
          (fun x => x.uuid = some u)
        = rowToRecord (recordToRow r) ::
            (post.map fun x => rowToRecord (recordToRow x)).filter
              (fun x => x.uuid = some u) := by
    simp only [writeArtifact, List.map_cons, List.map_append, List.map_map,
      Function.comp_def]
    rw [List.filter_cons_of_neg (by simpa using hhdrp), List.filter_append]
    rw [hnil, List.nil_append, List.filter_cons_of_pos (by simpa using hpredr)]
  simp only [get_data, hfil]
  rfl

/-- C1: the claim says splitting the same logical row sequence into batches of
two different sizes yields the identical DeduplicatedSet.  The code refutes
it: the two partitions of the same two-row sequence (one duplicated key) into
batches of size 1 and of size 2 yield different outputs, because
`deduplicate_data` deduplicates each chunk on its own and concatenates,
without a cross-chunk pass. -/
theorem C1_batch_size_changes_output :
    ([[recA1], [recA3]] : List (List Record)).flatten
        = ([[recA1, recA3]] : List (List Record)).flatten
    ∧ deduplicate_data [[recA1], [recA3]] = [recA1, recA3]
    ∧ deduplicate_data [[recA1, recA3]] = [recA1]
    ∧ deduplicate_data [[recA1], [recA3]] ≠ deduplicate_data [[recA1, recA3]] := by
  decide

/-- C2: the claim says no two records of the output share a DedupKey, and on
the spec's worked example the output is exactly the first two records.  The
code refutes it: on that very example the third record survives into the
output, which therefore holds two records with the same DedupKey. -/
theorem C2_uniqueness_violated_across_batches :
    deduplicate_data [[recA1, recB2], [recA3]] = [recA1, recB2, recA3]
    ∧ dedupKey recA3 = dedupKey recA1
    ∧ recA1.uuid ≠ recA3.uuid
    ∧ deduplicate_data [[recA1, recB2], [recA3]] ≠ [recA1, recB2] := by
  decide

/-- C3: the claim says that of two records with equal DedupKey and different
ids, only the one earlier in batch order is in the output.  The code refutes
it when the duplicates arrive in different batches: both survive. -/
theorem C3_later_duplicate_not_discarded :
    dedupKey recA1 = dedupKey recA3
    ∧ recA1.uuid ≠ recA3.uuid
    ∧ recA1 ∈ deduplicate_data [[recA1, recB2], [recA3]]
    ∧ recA3 ∈ deduplicate_data [[recA1, recB2], [recA3]] := by
  decide

/-- C4: the claim says a lookup miss — no artifact yet, or no matching id —
answers NotFound (404), never an internal error.  The code refutes it: with
no artifact `read_csv` raises and the blanket handler answers 500, and with
an artifact but no matching id the in-`try` HTTPException(404) is caught by
the same handler and also answers 500. -/
theorem C4_lookup_misses_answer_500 :
    get_data none "1" = .httpError 500
    ∧ get_data (some (writeArtifact [recA1])) "9" = .httpError 500
    ∧ get_data none "1" ≠ .httpError 404
    ∧ get_data (some (writeArtifact [recA1])) "9" ≠ .httpError 404 := by
  decide

/-- C5: a record with a missing field, written to the artifact by the
deduplication endpoint and read back through the lookup path, comes back with
an explicit null (`none`) for that field, never an empty string; every field
of the returned record is the cell round trip of the original field, the
round trip maps null to null and never produces an empty string, and the
persisted artifact is identical to the artifact of the normalized records, so
the normalization is already reflected in the persisted artifact and not only
in the response. -/
theorem C5_null_roundtrip (pre post : List Record) (r : Record) (u : String)
    (hhdr : u ≠ "uuid") (h0 : u ≠ "") (hr : r.uuid = some u)
    (hpre : ∀ x ∈ pre, x.uuid ≠ some u) :
    get_data (some (writeArtifact (pre ++ r :: post))) u = .found (roundTrip r)
    ∧ fieldsOf (roundTrip r) = (fieldsOf r).map cellRoundTrip
    ∧ cellRoundTrip none = none
    ∧ ((fieldsOf (roundTrip r)).all fun v => v ≠ some "") = true
    ∧ writeArtifact ((pre ++ r :: post).map normalizeRecord)
        = writeArtifact (pre ++ r :: post) := by
  refine ⟨get_data_first_match u pre post r hhdr h0 hr hpre,
    fieldsOf_roundTrip r, rfl, ?_, ?_⟩
  · rw [List.all_eq_true]
    intro v hv
    rw [fieldsOf_roundTrip] at hv
    simp only [List.mem_map] at hv
    obtain ⟨w, _, rfl⟩ := hv
    simpa using cellRoundTrip_ne_empty w
  · rw [map_normalizeRecord_id]

/-- Witness for C5 at the concrete record `recNullStreet`, whose street field
is missing and whose locality field is the empty string. -/
theorem C5_null_roundtrip_witness :
    get_data (some (writeArtifact ([] ++ recNullStreet :: []))) "7"
        = .found (roundTrip recNullStreet)
    ∧ fieldsOf (roundTrip recNullStreet) = (fieldsOf recNullStreet).map cellRoundTrip
    ∧ cellRoundTrip none = none
    ∧ ((fieldsOf (roundTrip recNullStreet)).all fun v => v ≠ some "") = true
    ∧ writeArtifact (([] ++ recNullStreet :: []).map normalizeRecord)
        = writeArtifact ([] ++ recNullStreet :: []) :=
  C5_null_roundtrip [] [] recNullStreet "7" (by decide) (by decide) (by decide)
    (by intro x hx; simp at hx)

/-- C6: when the raw dataset file already exists, the download endpoint
answers 200 "already downloaded" without scheduling the background task — the
only place network transfer happens — a second call under the same condition
returns the same result, and the background task itself returns without any
network request when the file exists. -/
theorem C6_fetch_idempotent_when_present (st : DownloadStatus)
    (f : Except String Unit) :
    download_data true st
        = ⟨⟨"already downloaded", st.error⟩, 200,
           "Data has already been downloaded.", false⟩
    ∧ download_data true (download_data true st).newState = download_data true st
    ∧ download_dataset true st f = (⟨"already downloaded", st.error⟩, false) :=
  ⟨rfl, rfl, rfl⟩

/-- C7: the claim says a fetch after a failure re-attempts the download from
scratch, and a leftover partial file is not reported as already present.  The
code refutes both parts: with the status stuck at "failed" and no file on
disk the endpoint answers 500 with the stored error and schedules no new
download, and when the failed attempt left a (partial) file on disk —
`Path.exists` is true — the endpoint answers 200 "already downloaded" with no
completeness verification. -/
theorem C7_failure_remembered_partial_trusted :
    download_data false ⟨"failed", some "connection reset"⟩
        = ⟨⟨"failed", some "connection reset"⟩, 500, "connection reset", false⟩
    ∧ download_data true ⟨"failed", some "connection reset"⟩
        = ⟨⟨"already downloaded", some "connection reset"⟩, 200,
           "Data has already been downloaded.", false⟩ := by
  decide

/-- C9: the claim says the engine's memory is bounded by the batch size and
the number of distinct DedupKeys, independent of the total row count.  The
code refutes it: on m batches of one record each, all sharing a single
DedupKey, the retained concatenated result — which the code holds in memory
in `deduplicated_data` before `pd.concat` — contains m records, one per
batch, growing linearly with the total row count while the distinct-key count
stays one and the batch size stays one. -/
theorem C9_retained_rows_grow_with_input (m : Nat) :
    (deduplicate_data (List.replicate m [recA1])).length = m
    ∧ ((List.replicate m [recA1]).flatten.all
        fun r => dedupKey r = dedupKey recA1) = true := by
  constructor
  · simp [deduplicate_data, List.map_replicate,
      show drop_duplicates [] [recA1] = [recA1] from rfl]
  · rw [List.flatten_replicate_singleton, List.all_eq_true]
    intro r hr
    rw [List.eq_of_mem_replicate hr]
    simp

/-- C10: the lookup reads the artifact's header line back as an ordinary data
record, so querying the literal string "uuid" returns, for every materialized
record list, the parsed header — a record whose every field equals its column
name. -/
theorem C10_header_row_served_as_record (rs : List Record) :
    get_data (some (writeArtifact rs)) "uuid" = .found (rowToRecord column_names)
    ∧ rowToRecord column_names
        = ⟨some "uuid", some "price", some "date", some "postcode", some "type",
           some "isNew", some "duration", some "code", some "dNo", some "street",
           some "locality", some "town", some "district", some "county",
           some "skip1", some "skip2"⟩ := by
  constructor
  · simp only [get_data, writeArtifact, List.map_cons]
    rw [List.filter_cons_of_pos (by decide)]
    show LookupResult.found (normalizeRecord (rowToRecord column_names))
        = LookupResult.found (rowToRecord column_names)
    rw [normalizeRecord_id]
  · decide
